import Mathlib

/-!
# Verification of the CSV kill-log ingestion pipeline

Shallow embedding of the core of the repository:
`cogs/csv_processor.py` (remote log locator override, cursor / file
selector, historical-vs-incremental mode selection, kill-event
classification and application, filename timestamp handling) and
`utils/server_identity.py` (`identify_server`).

Machine datetimes are modelled in two forms:
* `Ts` — the six broken-down fields of a `datetime` as produced by
  `strptime("%Y.%m.%d-%H.%M.%S")`;
* seconds since the proleptic-Gregorian epoch (`Ts.toSec`), used where the
  code compares datetimes or adds a `timedelta` (for valid datetimes,
  Python's field-lexicographic comparison coincides with comparison of
  this second count).
-/

/-! ## Decimal digits

`digitChar`/`digitVal?` model the ASCII digit characters used by the
`re` digit class `\d` and by `strftime`/`strptime` numeric fields on the
(ASCII) filenames this code handles. -/

/-- The decimal digit character for `n` (defined for `n ≤ 9`). -/
def digitChar : Nat → Char
  | 0 => '0' | 1 => '1' | 2 => '2' | 3 => '3' | 4 => '4'
  | 5 => '5' | 6 => '6' | 7 => '7' | 8 => '8' | 9 => '9'
  | _ => '*'

/-- Value of an ASCII digit character, `none` on anything else. -/
def digitVal? (c : Char) : Option Nat :=
  if c = '0' then some 0 else if c = '1' then some 1
  else if c = '2' then some 2 else if c = '3' then some 3
  else if c = '4' then some 4 else if c = '5' then some 5
  else if c = '6' then some 6 else if c = '7' then some 7
  else if c = '8' then some 8 else if c = '9' then some 9
  else none

theorem digitVal?_eq_some {c : Char} {n : Nat} (h : digitVal? c = some n) :
    n < 10 ∧ digitChar n = c := by
  unfold digitVal? at h
  repeat' split at h
  all_goals
    first
      | (injection h with h'; subst h'; simp_all [digitChar])
      | injection h

/-- Two-digit zero-padded decimal encoding (`%m`, `%d`, `%H`, `%M`, `%S`). -/
def enc2 (n : Nat) : List Char := [digitChar (n / 10), digitChar (n % 10)]

/-- Four-digit zero-padded decimal encoding (`%Y`). -/
def enc4 (n : Nat) : List Char :=
  [digitChar (n / 1000), digitChar (n / 100 % 10), digitChar (n / 10 % 10), digitChar (n % 10)]

/-- Decode two digit characters as a two-digit decimal number. -/
def dec2 (c1 c2 : Char) : Option Nat := do
  let a ← digitVal? c1
  let b ← digitVal? c2
  pure (10 * a + b)

/-- Decode four digit characters as a four-digit decimal number. -/
def dec4 (c1 c2 c3 c4 : Char) : Option Nat := do
  let a ← digitVal? c1
  let b ← digitVal? c2
  let c ← digitVal? c3
  let d ← digitVal? c4
  pure (1000 * a + 100 * b + 10 * c + d)

theorem dec2_enc2 {c1 c2 : Char} {n : Nat} (h : dec2 c1 c2 = some n) :
    n ≤ 99 ∧ enc2 n = [c1, c2] := by
  unfold dec2 at h
  cases h1 : digitVal? c1 with
  | none => rw [h1] at h; simp at h
  | some a =>
    cases h2 : digitVal? c2 with
    | none => rw [h1, h2] at h; simp at h
    | some b =>
      rw [h1, h2] at h
      obtain ⟨ha, ha'⟩ := digitVal?_eq_some h1
      obtain ⟨hb, hb'⟩ := digitVal?_eq_some h2
      injection h with h'
      subst h'
      refine ⟨by omega, ?_⟩
      have e1 : (10 * a + b) / 10 = a := by omega
      have e2 : (10 * a + b) % 10 = b := by omega
      simp [enc2, e1, e2, ha', hb']

theorem dec4_enc4 {c1 c2 c3 c4 : Char} {n : Nat} (h : dec4 c1 c2 c3 c4 = some n) :
    n ≤ 9999 ∧ enc4 n = [c1, c2, c3, c4] := by
  unfold dec4 at h
  cases h1 : digitVal? c1 with
  | none => rw [h1] at h; simp at h
  | some a =>
    cases h2 : digitVal? c2 with
    | none => rw [h1, h2] at h; simp at h
    | some b =>
      cases h3 : digitVal? c3 with
      | none => rw [h1, h2, h3] at h; simp at h
      | some c =>
        cases h4 : digitVal? c4 with
        | none => rw [h1, h2, h3, h4] at h; simp at h
        | some d =>
          rw [h1, h2, h3, h4] at h
          obtain ⟨ha, ha'⟩ := digitVal?_eq_some h1
          obtain ⟨hb, hb'⟩ := digitVal?_eq_some h2
          obtain ⟨hc, hc'⟩ := digitVal?_eq_some h3
          obtain ⟨hd, hd'⟩ := digitVal?_eq_some h4
          injection h with h'
          subst h'
          refine ⟨by omega, ?_⟩
          have e1 : (1000 * a + 100 * b + 10 * c + d) / 1000 = a := by omega
          have e2 : (1000 * a + 100 * b + 10 * c + d) / 100 % 10 = b := by omega
          have e3 : (1000 * a + 100 * b + 10 * c + d) / 10 % 10 = c := by omega
          have e4 : (1000 * a + 100 * b + 10 * c + d) % 10 = d := by omega
          simp [enc4, e1, e2, e3, e4, ha', hb', hc', hd']

/-! ## Broken-down timestamps (`datetime` fields)

`Ts` is the result of `datetime.strptime(s, "%Y.%m.%d-%H.%M.%S")`:
year, month, day, hour, minute, second. `Ts.valid` is the range check
`strptime`/the `datetime` constructor performs (`MINYEAR = 1`,
month 1–12, day within the month incl. leap years, hour 0–23,
minute/second 0–59). -/

structure Ts where
  y : Nat
  mo : Nat
  d : Nat
  h : Nat
  mi : Nat
  s : Nat
deriving DecidableEq, Repr

/-- Gregorian leap-year rule (as used by `datetime`). -/
def isLeap (y : Nat) : Bool := y % 4 = 0 && (y % 100 ≠ 0 || y % 400 = 0)

/-- Number of days in a month of a given year. -/
def daysInMonth (y mo : Nat) : Nat :=
  if mo = 2 then (if isLeap y then 29 else 28)
  else if mo = 4 || mo = 6 || mo = 9 || mo = 11 then 30
  else 31

/-- The range check performed by `datetime.strptime`/`datetime(...)`. -/
def Ts.validB (t : Ts) : Bool :=
  1 ≤ t.y && t.y ≤ 9999 && 1 ≤ t.mo && t.mo ≤ 12 &&
  1 ≤ t.d && t.d ≤ daysInMonth t.y t.mo &&
  t.h ≤ 23 && t.mi ≤ 59 && t.s ≤ 59

/-- Days from year 1 Jan 1 to year `y` Jan 1 (proleptic Gregorian). -/
def daysBeforeYear (y : Nat) : Nat :=
  365 * (y - 1) + (y - 1) / 4 - (y - 1) / 100 + (y - 1) / 400

/-- Days from Jan 1 to the first of month `mo` in year `y`. -/
def daysBeforeMonth (y mo : Nat) : Nat :=
  [0, 31, 59, 90, 120, 151, 181, 212, 243, 273, 304, 334].getD (mo - 1) 0 +
    (if 2 < mo && isLeap y then 1 else 0)

/-- Seconds since the proleptic-Gregorian epoch (year 1 Jan 1 00:00:00).
For valid datetimes this count is strictly monotone in the
field-lexicographic order, so `datetime` comparison and `timedelta`
arithmetic are faithfully represented on it. -/
def Ts.toSec (t : Ts) : Int :=
  ((daysBeforeYear t.y + daysBeforeMonth t.y t.mo + (t.d - 1)) * 86400 +
    t.h * 3600 + t.mi * 60 + t.s : Nat)

/-! ## The primary filename timestamp format

`parseTsList` models `datetime.strptime(s, "%Y.%m.%d-%H.%M.%S")` applied
to a literal of the primary pattern shape `YYYY.MM.DD-hh.mm.ss`
(exactly the shape the extraction regex
`\d{4}\.\d{2}\.\d{2}-\d{2}\.\d{2}\.\d{2}` produces).
`Ts.formatList` models `strftime("%Y.%m.%d-%H.%M.%S")`
(all fields zero-padded). -/

/-- Parse a `YYYY.MM.DD-hh.mm.ss` literal; `none` when the shape or any
field range is wrong (the `ValueError` branch of `strptime`). -/
def parseTsList : List Char → Option Ts
  | [y1, y2, y3, y4, p1, m1, m2, p2, d1, d2, dash, h1, h2, p3, i1, i2, p4, s1, s2] =>
    if p1 = '.' && p2 = '.' && dash = '-' && p3 = '.' && p4 = '.' then
      match dec4 y1 y2 y3 y4, dec2 m1 m2, dec2 d1 d2,
            dec2 h1 h2, dec2 i1 i2, dec2 s1 s2 with
      | some y, some mo, some d, some h, some mi, some s =>
        let t : Ts := ⟨y, mo, d, h, mi, s⟩
        if t.validB then some t else none
      | _, _, _, _, _, _ => none
    else none
  | _ => none

/-- Print the `YYYY.MM.DD-hh.mm.ss` literal of a timestamp. -/
def Ts.formatList (t : Ts) : List Char :=
  enc4 t.y ++ '.' :: (enc2 t.mo ++ '.' :: (enc2 t.d ++ '-' ::
    (enc2 t.h ++ '.' :: (enc2 t.mi ++ '.' :: enc2 t.s))))

/-- String wrapper for `parseTsList`. -/
def parsePrimaryTs (s : String) : Option Ts := parseTsList s.toList

/-- String wrapper for `Ts.formatList`. -/
def Ts.format (t : Ts) : String := ⟨t.formatList⟩

theorem parseTsList_formatList {l : List Char} {t : Ts}
    (h : parseTsList l = some t) : Ts.formatList t = l := by
  unfold parseTsList at h
  split at h
  · next y1 y2 y3 y4 p1 m1 m2 p2 d1 d2 dash h1 h2 p3 i1 i2 p4 s1 s2 =>
    split at h
    · next hsep =>
      simp only [Bool.and_eq_true, decide_eq_true_eq] at hsep
      obtain ⟨⟨⟨⟨hp1, hp2⟩, hdash⟩, hp3⟩, hp4⟩ := hsep
      split at h
      · next y mo d hh mi s hy hmo hd hhh hmi hs =>
        by_cases hv : Ts.validB ⟨y, mo, d, hh, mi, s⟩ = true
        · simp only [hv, if_true] at h
          injection h with h'
          subst h'
          obtain ⟨_, ey⟩ := dec4_enc4 hy
          obtain ⟨_, emo⟩ := dec2_enc2 hmo
          obtain ⟨_, ed⟩ := dec2_enc2 hd
          obtain ⟨_, eh⟩ := dec2_enc2 hhh
          obtain ⟨_, emi⟩ := dec2_enc2 hmi
          obtain ⟨_, es⟩ := dec2_enc2 hs
          simp [Ts.formatList, ey, emo, ed, eh, emi, es, hp1, hp2, hdash, hp3, hp4]
        · simp only [hv, if_false] at h
          exact Option.noConfusion h
      · exact Option.noConfusion h
    · exact Option.noConfusion h
  · exact Option.noConfusion h

/-! ## Filename handling used by the selector

`searchDatePattern` models
`re.search(r'(\d{4}\.\d{2}\.\d{2}-\d{2}\.\d{2}\.\d{2})', filename)`
(leftmost match of the fixed 19-character shape);
`basenameChars` models `os.path.basename`;
`splitBeforeCsv` models `file_name.split('.csv')[0]` (the prefix before
the first occurrence of `.csv`). -/

/-- Try the fixed date-pattern shape at the head of the list. -/
def datePatternHead : List Char → Option (List Char)
  | y1 :: y2 :: y3 :: y4 :: p1 :: m1 :: m2 :: p2 :: d1 :: d2 :: dash ::
      h1 :: h2 :: p3 :: i1 :: i2 :: p4 :: s1 :: s2 :: _ =>
    if (digitVal? y1).isSome && (digitVal? y2).isSome && (digitVal? y3).isSome &&
       (digitVal? y4).isSome && p1 = '.' &&
       (digitVal? m1).isSome && (digitVal? m2).isSome && p2 = '.' &&
       (digitVal? d1).isSome && (digitVal? d2).isSome && dash = '-' &&
       (digitVal? h1).isSome && (digitVal? h2).isSome && p3 = '.' &&
       (digitVal? i1).isSome && (digitVal? i2).isSome && p4 = '.' &&
       (digitVal? s1).isSome && (digitVal? s2).isSome then
      some [y1, y2, y3, y4, p1, m1, m2, p2, d1, d2, dash, h1, h2, p3, i1, i2, p4, s1, s2]
    else none
  | _ => none

/-- Leftmost match of the date pattern anywhere in the list. -/
def searchDatePattern : List Char → Option (List Char)
  | [] => none
  | c :: cs =>
    match datePatternHead (c :: cs) with
    | some m => some m
    | none => searchDatePattern cs

/-- `os.path.basename`: the part after the last `/`. -/
def basenameChars (l : List Char) : List Char :=
  (l.reverse.takeWhile (fun c => c ≠ '/')).reverse

/-- The prefix of the list before the first occurrence of `.csv`
(`file_name.split('.csv')[0]`). -/
def splitBeforeCsv : List Char → List Char
  | [] => []
  | c :: cs =>
    if ('.' :: 'c' :: 's' :: 'v' :: []).isPrefixOf (c :: cs) then []
    else c :: splitBeforeCsv cs

/-- Lines 999–1014 of `csv_processor.py`: extract the date literal from
the basename of a candidate file and parse it with the primary format.
When the regex matches but the fields are out of range, `strptime`
raises and the retry loop (lines 1034–1053) also fails on every
alternative format (each needs a separator the extracted literal does
not contain), so the result is `none` (the file is then included by
default). -/
def parseEmbeddedTs (f : String) : Option Ts :=
  (searchDatePattern (basenameChars f.toList)).bind parseTsList

/-! ## Incremental cursor / file selector (lines 994–1062)

The cursor (`last_time_str`) is a whole-second datetime; it and the
clock `datetime.now()` are given as second counts. -/

/-- Decision for one candidate file, lines 999–1062:
* parseable embedded timestamp more than one hour in the future →
  skipped (lines 1016–1021);
* parseable timestamp → selected iff strictly newer than the cursor
  (lines 1027–1032);
* no parseable timestamp → included by default (lines 1055–1062). -/
def selectKeep (cursorSec nowSec : Int) (f : String) : Bool :=
  match parseEmbeddedTs f with
  | some t =>
    if t.toSec > nowSec + 3600 then false
    else decide (t.toSec > cursorSec)
  | none => true

/-- `new_files`: the candidate files that survive the cursor filter. -/
def selectNewFiles (cursorSec nowSec : Int) (files : List String) : List String :=
  files.filter (selectKeep cursorSec nowSec)

/-! ## Historical vs incremental mode (lines 1100–1122) -/

/-- `timedelta.days` of `now - start`: floor division of the second
difference by 86400. -/
def daysDiffOf (nowSec startSec : Int) : Int := (nowSec - startSec).fdiv 86400

/-- Line 1100–1106: `is_historical_mode = days_diff >= 7` when a start
date is given, `False` otherwise. -/
def isHistoricalMode (startSec : Option Int) (nowSec : Int) : Bool :=
  match startSec with
  | some s => decide (daysDiffOf nowSec s ≥ 7)
  | none => false

/-- Lines 1108–1122: historical mode processes all sorted files in full;
otherwise all files are processed but only new lines (when there are
any files). Returns (files to process, only_new_lines). -/
def filesToProcessSel (startSec : Option Int) (nowSec : Int)
    (sortedFiles : List String) : List String × Bool :=
  if isHistoricalMode startSec nowSec then (sortedFiles, false)
  else if sortedFiles.isEmpty then ([], false)
  else (sortedFiles, true)

/-! ## The local-fixture override (lines 965–992)

After discovery (whatever it produced), the block at lines 965–992
clears `csv_files` and replaces it with the `.csv` entries of the local
`./attached_assets` directory. `remoteCsvFiles` is the discovery result
in scope at line 965; `attachedAssets` is `os.listdir('attached_assets')`
(`none` when the directory does not exist). -/
def endsWithCsvB (n : String) : Bool := ['.', 'c', 's', 'v'].isSuffixOf n.toList

def overrideWithLocalFixtures (remoteCsvFiles : List String)
    (attachedAssets : Option (List String)) : List String :=
  -- line 971: csv_files = []
  let cleared : List String := []
  match attachedAssets with
  | some entries =>
    -- lines 977–980: collect entries ending in ".csv", joined under the dir
    let test_files := (entries.filter endsWithCsvB).map
      (fun n => "./attached_assets/" ++ n)
    -- lines 982–990: use ONLY the test files when any exist
    if test_files.isEmpty then cleared else test_files
  | none => cleared

/-! ## Cursor effects of one processing run

`debug_force_all` (lines 955–963) overwrites the stored per-server
cursor with `now - 365 days` before filtering. After the loop, the
cursor is updated only when the file just processed equals
`new_files[-1]` (lines 1240–1247): it becomes the timestamp parsed from
`file.split('.csv')[0]` with the primary format — a parse that fails
whenever the path has a directory component — or `datetime.now()` on
failure. `newestProcessed` is that file when its processing completed,
`none` when no such update happened. -/

/-- Line 959–961: the forced cursor `datetime.now() - timedelta(days=365)`. -/
def debugForcedCursor (nowSec : Int) : Int := nowSec - 365 * 86400

/-- Lines 1243: `datetime.strptime(file.split('.csv')[0], "%Y.%m.%d-%H.%M.%S")`. -/
def parsePathTs (filePath : String) : Option Ts :=
  parseTsList (splitBeforeCsv filePath.toList)

/-- Lines 1240–1247: the cursor value written for the newest file. -/
def cursorAfterNewestFile (nowSec : Int) (filePath : String) : Int :=
  match parsePathTs filePath with
  | some t => t.toSec
  | none => nowSec

/-- Net effect of one `_process_server_csv_files` run on the stored
cursor. The pre-run value `preCursor` is overwritten unconditionally by
the `debug_force_all` block, so it does not influence the result. -/
def processCycleCursor (preCursor nowSec : Int) (newestProcessed : Option String) : Int :=
  match newestProcessed with
  | none => debugForcedCursor nowSec
  | some f => cursorAfterNewestFile nowSec f

/-- `run_historical_parse_with_config` (lines 1283–1303): sets the
cursor to `now - days` (line 1287) and then runs the per-server routine
with that start date. -/
def historicalParseCursor (preCursor nowSec : Int) (days : Int)
    (newestProcessed : Option String) : Int :=
  processCycleCursor (nowSec - days * 86400) nowSec newestProcessed

/-! ## Kill-event classification and application (`_process_kill_event`)

Lines 1757–1863 of `csv_processor.py`. The event dict is modelled as a
structure of the fields read at lines 1767–1779; the database side
effects are collected as values: per-player stat deltas
(`update_stats` calls), rivalry records (`Rivalry.record_kill`),
nemesis/prey recomputations (`update_nemesis_and_prey`), and inserted
kill documents. -/

structure Event where
  server_id : String
  killer_id : String
  killer_name : String
  victim_id : String
  victim_name : String
  weapon : String
  distance : Int
  timestamp : Int
deriving DecidableEq, Repr

inductive Kind where
  | kill
  | suicide
deriving DecidableEq, Repr

/-- One `update_stats` call: player id and the kills/deaths/suicides
increments passed. -/
structure StatUpdate where
  player_id : String
  kills : Nat
  deaths : Nat
  suicides : Nat
deriving DecidableEq, Repr

/-- One document inserted into `db.kills` (lines 1845–1857). -/
structure KillDoc where
  server_id : String
  killer_id : String
  killer_name : String
  victim_id : String
  victim_name : String
  weapon : String
  distance : Int
  timestamp : Int
  is_suicide : Bool
deriving DecidableEq, Repr

/-- One `Rivalry.record_kill(server_id, killer_id, victim_id, weapon, "")`. -/
structure RivalryRecord where
  server_id : String
  killer_id : String
  victim_id : String
  weapon : String
deriving DecidableEq, Repr

/-- The visible effects of a successfully applied event. -/
structure Applied where
  kind : Kind
  statUpdates : List StatUpdate
  rivalryRecords : List RivalryRecord
  nemesisPreyRecomputed : List String
  killDocs : List KillDoc
deriving DecidableEq, Repr

/-- Lines 1788–1806: the `is_suicide` decision —
matching non-empty ids, OR a sentinel weapon, OR matching non-empty
names. -/
def isSuicideEvent (e : Event) : Bool :=
  (e.killer_id ≠ "" && e.victim_id ≠ "" && e.killer_id = e.victim_id) ||
  (e.weapon = "suicide_by_relocation" || e.weapon = "suicide") ||
  (e.killer_name ≠ "" && e.victim_name ≠ "" && e.killer_name = e.victim_name)

/-- Lines 1796–1806: when a suicide is detected through the weapon
sentinel or the name match, `killer_id` is overwritten with
`victim_id` "for consistent DB entries". -/
def effectiveKillerId (e : Event) : String :=
  if e.killer_id ≠ "" && e.victim_id ≠ "" && e.killer_id = e.victim_id then e.killer_id
  else if e.weapon = "suicide_by_relocation" || e.weapon = "suicide" then e.victim_id
  else if e.killer_name ≠ "" && e.victim_name ≠ "" && e.killer_name = e.victim_name then
    e.victim_id
  else e.killer_id

/-- `_process_kill_event` (lines 1757–1863) as a pure function:
`none` models `return False` (the event is dropped), `some` carries the
applied effects. The order of checks follows the source: `server_id`
guard (1767–1770), suicide classification (1788–1806), `victim_id`
guard (1808–1811), suicide application (1813–1821), `killer_id` guard
(1823–1826), kill application (1828–1859). -/
def process_kill_event (e : Event) : Option Applied :=
  if e.server_id = "" then none
  else
    let is_suicide := isSuicideEvent e
    let killer_id := effectiveKillerId e
    if e.victim_id = "" then none
    else if is_suicide then
      some { kind := .suicide
             statUpdates := [⟨e.victim_id, 0, 0, 1⟩]
             rivalryRecords := []
             nemesisPreyRecomputed := []
             killDocs := [] }
    else if killer_id = "" then none
    else
      some { kind := .kill
             statUpdates := [⟨killer_id, 1, 0, 0⟩, ⟨e.victim_id, 0, 1, 0⟩]
             rivalryRecords := [⟨e.server_id, killer_id, e.victim_id, e.weapon⟩]
             nemesisPreyRecomputed := [killer_id, e.victim_id]
             killDocs := [⟨e.server_id, killer_id, e.killer_name, e.victim_id,
                           e.victim_name, e.weapon, e.distance, e.timestamp, false⟩] }

/-! ## Player lookup-or-create (`_get_or_create_player`, lines 1865–1896) -/

structure PlayerRec where
  player_id : String
  server_id : String
  name : String
  display_name : String
  kills : Nat
  deaths : Nat
  suicides : Nat
  last_seen : Int
  created_at : Int
  updated_at : Int
deriving DecidableEq, Repr

/-- Modelled from the spec: `Player.get_by_player_id` lives in
`models/player.py`, which is not part of this snapshot; per its name and
call site (line 1879) it is a point lookup of a player document by
`player_id` — the call passes only the player id, so no server filter
can be applied. -/
def get_by_player_id (db : List PlayerRec) (player_id : String) : Option PlayerRec :=
  db.find? (fun p => p.player_id = player_id)

/-- Modelled from the spec: the `Player` constructor (lines 1883–1891
pass ids, names and `utcnow()` timestamps; per the spec, absent players
are created with zeroed counters). -/
def newPlayer (server_id player_id player_name : String) (nowSec : Int) : PlayerRec :=
  { player_id := player_id
    server_id := server_id
    name := player_name
    display_name := player_name
    kills := 0
    deaths := 0
    suicides := 0
    last_seen := nowSec
    created_at := nowSec
    updated_at := nowSec }

/-- `_get_or_create_player`: look up by player id; create and insert
when absent. Returns the player used and the updated collection. -/
def get_or_create_player (db : List PlayerRec) (server_id player_id player_name : String)
    (nowSec : Int) : PlayerRec × List PlayerRec :=
  match get_by_player_id db player_id with
  | some p => (p, db)
  | none =>
    let p := newPlayer server_id player_id player_name nowSec
    (p, db ++ [p])

/-! ## Server identity resolution (`utils/server_identity.py`) -/

/-- Maximal runs of ASCII digit characters, in order of appearance:
`re.findall(r'(\d+)', s)`. -/
def digitRunsAux : List Char → List Char → List (List Char)
  | [], acc => if acc.isEmpty then [] else [acc.reverse]
  | c :: cs, acc =>
    if (digitVal? c).isSome then digitRunsAux cs (c :: acc)
    else if acc.isEmpty then digitRunsAux cs []
    else acc.reverse :: digitRunsAux cs []

def digitRuns (l : List Char) : List (List Char) := digitRunsAux l []

/-- `str.isdigit()`: non-empty and all digit characters. -/
def isDigitStr (l : List Char) : Bool :=
  !l.isEmpty && l.all (fun c => (digitVal? c).isSome)

/-- `server_id.isdigit()` on the string. -/
def pyIsDigit (s : String) : Bool := isDigitStr s.toList

/-- `re.findall(r'(\d+)', s)` on the string. -/
def digitRunsStr (s : String) : List (List Char) := digitRuns s.toList

/-- `identify_server` (lines 58–108 of `server_identity.py`),
parametrised by the `KNOWN_SERVERS` mapping:
known mapping hit → `(mapped, true)` (lines 83–85); purely numeric id →
itself (lines 92–93); otherwise the first digit run, upgraded to the
first run of length ≥ 4 when one exists (lines 96–105); otherwise the
id unchanged (line 108). -/
def identify_server (knownServers : List (String × String)) (server_id : String) :
    String × Bool :=
  match knownServers.lookup server_id with
  | some mapped => (mapped, true)
  | none =>
    if server_id ≠ "" then
      if pyIsDigit server_id then (server_id, false)
      else
        match digitRunsStr server_id with
        | [] => (server_id, false)
        | r :: rs =>
          let extracted := r
          let longer_parts := (r :: rs).filter (fun part => part.length ≥ 4)
          match longer_parts with
          | [] => (⟨extracted⟩, false)
          | lp :: _ => (⟨lp⟩, false)
    else (server_id, false)

/-! ## Helper lemmas -/

theorem effectiveKillerId_of_not_suicide {e : Event} (h : isSuicideEvent e = false) :
    effectiveKillerId e = e.killer_id := by
  unfold isSuicideEvent at h
  have hA : ¬((e.killer_id ≠ "" && e.victim_id ≠ "" && e.killer_id = e.victim_id) = true) := by
    intro hc
    simp at hc h
    tauto
  have hB : ¬((e.weapon = "suicide_by_relocation" || e.weapon = "suicide") = true) := by
    intro hc
    simp at hc h
    tauto
  have hC : ¬((e.killer_name ≠ "" && e.victim_name ≠ "" &&
      e.killer_name = e.victim_name) = true) := by
    intro hc
    simp at hc h
    tauto
  unfold effectiveKillerId
  rw [if_neg hA, if_neg hB, if_neg hC]

/-! ## Claim theorems -/

/-- C1: the local test-fixture block at lines 965–992 is not gated on
any flag and does not preserve a non-empty remote discovery result: with
a remote search that found one CSV file and an `attached_assets`
directory holding one fixture, the file list handed to the parser is
exactly the local fixture, not the remote result. -/
theorem c1_local_fixture_override_discards_remote :
    overrideWithLocalFixtures ["/h_7020/actual1/deathlogs/2025.05.03-00.00.00.csv"]
        (some ["2025.05.01-00.00.00.csv"])
      = ["./attached_assets/2025.05.01-00.00.00.csv"] ∧
    overrideWithLocalFixtures ["/h_7020/actual1/deathlogs/2025.05.03-00.00.00.csv"]
        (some ["2025.05.01-00.00.00.csv"])
      ≠ ["/h_7020/actual1/deathlogs/2025.05.03-00.00.00.csv"] := by
  constructor <;> decide

/-- C2 counterexample: a scheduled cycle that processes no file leaves
the cursor at `now - 365 days` (the `debug_force_all` override),
strictly below a pre-cycle cursor of `now - 1 day`. -/
theorem c2_cursor_monotonicity_counterexample :
    processCycleCursor 1699913600 1700000000 none < 1699913600 := by decide

/-- C2 (amended): the post-run cursor is independent of the pre-run
cursor — the `debug_force_all` block overwrites it, and
`run_historical_parse_with_config` additionally sets it to `now - days`
before the run — so monotonicity fails; the post-run value is
`now - 365 days` when no file completes, the newest processed file's
path-parsed timestamp when the path parses, and `now` otherwise. -/
theorem c2_cursor_not_monotonic_characterization (pre pre' nowSec days : Int)
    (newest : Option String) :
    processCycleCursor pre nowSec newest = processCycleCursor pre' nowSec newest ∧
    historicalParseCursor pre nowSec days newest = processCycleCursor pre nowSec newest ∧
    processCycleCursor pre nowSec none = nowSec - 365 * 86400 ∧
    (∀ f, newest = some f → parsePathTs f = none →
        processCycleCursor pre nowSec newest = nowSec) ∧
    (∀ f t, newest = some f → parsePathTs f = some t →
        processCycleCursor pre nowSec newest = t.toSec) := by
  refine ⟨rfl, rfl, rfl, ?_, ?_⟩
  · intro f hf hp
    subst hf
    simp [processCycleCursor, cursorAfterNewestFile, hp]
  · intro f t hf hp
    subst hf
    simp [processCycleCursor, cursorAfterNewestFile, hp]

/-- C2 witness: processing ends on an `attached_assets` path (whose
prefix before `.csv` does not parse), so the cursor is set to `now`. -/
theorem c2_cursor_witness :
    processCycleCursor 0 1700000000 (some "./attached_assets/2025.05.01-00.00.00.csv")
      = 1700000000 :=
  (c2_cursor_not_monotonic_characterization 0 1 1700000000 30
      (some "./attached_assets/2025.05.01-00.00.00.csv")).2.2.2.1
    "./attached_assets/2025.05.01-00.00.00.csv" rfl (by decide)

/-- C4 counterexample: an event with a non-empty victim id but an empty
killer id, distinct names and an ordinary weapon is dropped
(`return False` at lines 1823–1826), not classified. -/
theorem c4_dropped_nonempty_victim_counterexample :
    (Event.victim_id ⟨"s1", "", "A", "2", "B", "AK47", 0, 0⟩ ≠ "") ∧
    process_kill_event ⟨"s1", "", "A", "2", "B", "AK47", 0, 0⟩ = none := by
  constructor <;> decide

/-- C4 (amended): for an event with non-empty server and victim ids, the
applier classifies it Suicide when the suicide conditions hold, Kill
when they fail and the killer id is non-empty, and drops it when they
fail and the killer id is empty (in addition to the empty-victim-id
drop). -/
theorem c4_classification_totality_amended (e : Event)
    (hs : e.server_id ≠ "") (hv : e.victim_id ≠ "") :
    (isSuicideEvent e = true →
        (process_kill_event e).map Applied.kind = some Kind.suicide) ∧
    (isSuicideEvent e = false → e.killer_id ≠ "" →
        (process_kill_event e).map Applied.kind = some Kind.kill) ∧
    (isSuicideEvent e = false → e.killer_id = "" → process_kill_event e = none) := by
  unfold process_kill_event
  rw [if_neg hs, if_neg hv]
  refine ⟨?_, ?_, ?_⟩
  · intro hsu
    simp [hsu]
  · intro hsu hk
    rw [effectiveKillerId_of_not_suicide hsu]
    simp [hsu, hk]
  · intro hsu hk
    rw [effectiveKillerId_of_not_suicide hsu]
    simp [hsu, hk]

/-- C4 witness: a plain kill row is classified Kill. -/
theorem c4_classification_witness :
    (process_kill_event ⟨"s1", "1", "K", "2", "V", "AK47", 100, 0⟩).map Applied.kind
      = some Kind.kill :=
  (c4_classification_totality_amended ⟨"s1", "1", "K", "2", "V", "AK47", 100, 0⟩
      (by decide) (by decide)).2.1 (by decide) (by decide)

/-- C5 counterexample: for a sentinel-weapon suicide with
`killerId ≠ victimId`, the applied effects contain no kill document at
all (the suicide branch returns before the insert at line 1857), so no
record with `killerId = victimId` and suicide flag `true` is
persisted. -/
theorem c5_no_killdoc_for_sentinel_suicide_counterexample :
    process_kill_event ⟨"s1", "1", "K", "2", "V", "suicide_by_relocation", 0, 0⟩
      = some ⟨.suicide, [⟨"2", 0, 0, 1⟩], [], [], []⟩ := by decide

/-- C5 (amended): a sentinel-weapon suicide with `killerId ≠ victimId`
increments only the victim's suicide counter; the killer-id coercion to
the victim id stays in memory and no kill record, rivalry record or
nemesis/prey recomputation is persisted. -/
theorem c5_sentinel_suicide_effects (e : Event)
    (hw : e.weapon = "suicide_by_relocation" ∨ e.weapon = "suicide")
    (hne : e.killer_id ≠ e.victim_id) (hv : e.victim_id ≠ "") (hs : e.server_id ≠ "") :
    process_kill_event e = some ⟨.suicide, [⟨e.victim_id, 0, 0, 1⟩], [], [], []⟩ := by
  have hsu : isSuicideEvent e = true := by
    unfold isSuicideEvent
    rcases hw with hw | hw <;> simp [hw]
  unfold process_kill_event
  rw [if_neg hs, if_neg hv]
  simp [hsu]

/-- C5 witness: concrete sentinel-weapon suicide. -/
theorem c5_sentinel_suicide_witness :
    process_kill_event ⟨"srv", "7", "Ka", "8", "Vb", "suicide", 0, 5⟩
      = some ⟨.suicide, [⟨"8", 0, 0, 1⟩], [], [], []⟩ :=
  c5_sentinel_suicide_effects ⟨"srv", "7", "Ka", "8", "Vb", "suicide", 0, 5⟩
    (Or.inr rfl) (by decide) (by decide) (by decide)

/-- C6 counterexample: with a lookback of exactly seven days (which does
not exceed seven days) the mode selector still chooses historical,
because line 1103 tests `days_diff >= 7`. -/
theorem c6_boundary_seven_days_counterexample :
    isHistoricalMode (some (1700000000 - 7 * 86400)) 1700000000 = true ∧
    ¬(1700000000 - (1700000000 - 7 * 86400) > 7 * 86400) := by
  constructor <;> decide

/-- C6 (amended): with an explicit start date the run is historical
exactly when the lookback is at least seven days (`days_diff >= 7`,
i.e. `now - start ≥ 7 * 86400` seconds), and incremental otherwise. -/
theorem c6_historical_mode_iff_at_least_seven_days (nowSec startSec : Int) :
    isHistoricalMode (some startSec) nowSec = true ↔ nowSec - startSec ≥ 7 * 86400 := by
  simp only [isHistoricalMode, daysDiffOf, decide_eq_true_eq, ge_iff_le]
  rw [Int.fdiv_eq_ediv _ (by norm_num)]
  omega

/-- C6 witness: an eight-day lookback is historical. -/
theorem c6_mode_witness :
    isHistoricalMode (some (1700000000 - 8 * 86400)) 1700000000 = true :=
  (c6_historical_mode_iff_at_least_seven_days 1700000000 (1700000000 - 8 * 86400)).mpr
    (by decide)

/-- C8 counterexample: with a stored player record for player id `1` on
server `A`, a lookup-or-create for the same player id on server `B`
returns the server-`A` record — the lookup is keyed by the player id
alone. -/
theorem c8_lookup_ignores_server_counterexample :
    (get_or_create_player [⟨"1", "A", "x", "x", 5, 0, 0, 0, 0, 0⟩] "B" "1" "y" 100).1.server_id
      = "A" ∧ ("A" : String) ≠ "B" := by
  constructor <;> decide

/-- C8 (amended): the lookup is keyed by `player_id` alone (any server's
record with that player id is returned); only when no record with that
player id exists is a player created, and that player carries the
requested server id, zeroed counters and `now()` timestamps. -/
theorem c8_player_lookup_and_create (db : List PlayerRec) (sid pid name : String)
    (nowSec : Int) :
    (∀ p, get_by_player_id db pid = some p →
        (get_or_create_player db sid pid name nowSec).1 = p) ∧
    (get_by_player_id db pid = none →
        (get_or_create_player db sid pid name nowSec).1 = newPlayer sid pid name nowSec) ∧
    ((newPlayer sid pid name nowSec).server_id = sid ∧
      (newPlayer sid pid name nowSec).player_id = pid ∧
      (newPlayer sid pid name nowSec).kills = 0 ∧
      (newPlayer sid pid name nowSec).deaths = 0 ∧
      (newPlayer sid pid name nowSec).suicides = 0 ∧
      (newPlayer sid pid name nowSec).created_at = nowSec ∧
      (newPlayer sid pid name nowSec).last_seen = nowSec ∧
      (newPlayer sid pid name nowSec).updated_at = nowSec) := by
  refine ⟨?_, ?_, by simp [newPlayer]⟩
  · intro p hp
    unfold get_or_create_player
    rw [hp]
  · intro hp
    unfold get_or_create_player
    rw [hp]

/-- C8 witness: creating into an empty collection yields the fresh
player record. -/
theorem c8_player_witness :
    (get_or_create_player [] "A" "p" "n" 42).1 = newPlayer "A" "p" "n" 42 :=
  (c8_player_lookup_and_create [] "A" "p" "n" 42).2.1 rfl

/-- C3 counterexample: a candidate file whose embedded timestamp
(2030-01-01) is strictly greater than the cursor (2020-01-01) is
nevertheless not selected, because it lies more than one hour past the
clock (2025-05-10). -/
theorem c3_strict_cursor_iff_counterexample :
    Ts.toSec ⟨2030, 1, 1, 0, 0, 0⟩ > Ts.toSec ⟨2020, 1, 1, 0, 0, 0⟩ ∧
    parseEmbeddedTs "2030.01.01-00.00.00.csv" = some ⟨2030, 1, 1, 0, 0, 0⟩ ∧
    selectNewFiles (Ts.toSec ⟨2020, 1, 1, 0, 0, 0⟩) (Ts.toSec ⟨2025, 5, 10, 0, 0, 0⟩)
        ["2030.01.01-00.00.00.csv"] = [] := by
  refine ⟨by decide, by decide, by decide⟩

/-- C3 (amended): a candidate is selected iff it is in the list and, in
case its name yields a parseable embedded timestamp, that timestamp is
strictly greater than the cursor AND at most one hour past the current
clock; files without a parseable timestamp are always selected
(fail-open). -/
theorem c3_selection_characterization (cursorSec nowSec : Int) (files : List String)
    (f : String) :
    f ∈ selectNewFiles cursorSec nowSec files ↔
      f ∈ files ∧
        ∀ t, parseEmbeddedTs f = some t →
          t.toSec ≤ nowSec + 3600 ∧ cursorSec < t.toSec := by
  unfold selectNewFiles
  rw [List.mem_filter]
  refine and_congr_right fun _ => ?_
  unfold selectKeep
  cases hp : parseEmbeddedTs f with
  | none => simp
  | some t =>
    dsimp only
    by_cases hf : t.toSec > nowSec + 3600
    · rw [if_pos hf]
      constructor
      · intro hfalse
        exact absurd hfalse (by simp)
      · intro hall
        obtain ⟨h1, -⟩ := hall t rfl
        exact absurd h1 (by omega)
    · rw [if_neg hf]
      push_neg at hf
      constructor
      · intro hdec t' ht'
        injection ht' with ht''
        subst ht''
        exact ⟨hf, by simpa using hdec⟩
      · intro hall
        obtain ⟨-, h2⟩ := hall t rfl
        simpa using h2

/-- C3 witness (Scenario D, with the clock at 2025-05-10): of the
candidates at 2025-05-01 and 2025-05-03 against cursor 2025-05-02,
exactly the 2025-05-03 file is selected. -/
theorem c3_selection_witness :
    selectNewFiles (Ts.toSec ⟨2025, 5, 2, 0, 0, 0⟩) (Ts.toSec ⟨2025, 5, 10, 0, 0, 0⟩)
        ["2025.05.01-00.00.00.csv", "2025.05.03-00.00.00.csv"]
      = ["2025.05.03-00.00.00.csv"] ∧
    "2025.05.03-00.00.00.csv" ∈ selectNewFiles (Ts.toSec ⟨2025, 5, 2, 0, 0, 0⟩)
        (Ts.toSec ⟨2025, 5, 10, 0, 0, 0⟩)
        ["2025.05.01-00.00.00.csv", "2025.05.03-00.00.00.csv"] := by
  refine ⟨by decide, ?_⟩
  apply (c3_selection_characterization _ _ _ _).mpr
  refine ⟨by decide, ?_⟩
  intro t ht
  have hpe : parseEmbeddedTs "2025.05.03-00.00.00.csv" = some ⟨2025, 5, 3, 0, 0, 0⟩ := by
    decide
  rw [hpe] at ht
  injection ht with ht'
  subst ht'
  exact ⟨by decide, by decide⟩

/-- C7 counterexample: for `srv-1234-567890` the extractor returns the
first run of ≥ 4 digits (`1234`), not the longest (`567890`); and for
`abc-12`, which has no run of ≥ 4 digits, it returns the first digit
run (`12`) rather than the id unchanged. -/
theorem c7_first_not_longest_counterexample :
    identify_server [] "srv-1234-567890" = ("1234", false) ∧
    ("1234" : String) ≠ "567890" ∧
    identify_server [] "abc-12" = ("12", false) ∧
    ("12" : String) ≠ "abc-12" := by
  refine ⟨by decide, by decide, by decide, by decide⟩

/-- C7 (amended): for a non-empty, non-numeric server id absent from the
known-servers mapping, `identify_server` returns (not known) together
with: the first digit run of length ≥ 4 when one exists; otherwise the
first digit run of any length when the id contains digits; otherwise
the id unchanged. -/
theorem c7_identify_server_characterization (ks : List (String × String)) (sid : String)
    (hk : ks.lookup sid = none) (hnum : pyIsDigit sid = false) (hne : sid ≠ "") :
    identify_server ks sid =
      (match ((digitRunsStr sid).filter (fun part => part.length ≥ 4)).head? with
       | some lp => (⟨lp⟩, false)
       | none =>
         match (digitRunsStr sid).head? with
         | some r => (⟨r⟩, false)
         | none => (sid, false)) := by
  simp only [identify_server, hk]
  rw [if_pos hne, if_neg (by simp [hnum])]
  cases hr : digitRunsStr sid with
  | nil => simp
  | cons r rs =>
    cases hf : (r :: rs).filter (fun part => part.length ≥ 4) with
    | nil => simp [hf]
    | cons lp lps => simp [hf]

/-- C7 witness: `game-7020x` resolves to its single ≥ 4-digit run. -/
theorem c7_identify_server_witness :
    identify_server [] "game-7020x" = ("7020", false) := by
  rw [c7_identify_server_characterization [] "game-7020x" rfl (by decide) (by decide)]
  decide

/-- C9: for every filename matching the primary pattern
`YYYY.MM.DD-hh.mm.ss.csv` whose embedded literal parses, re-formatting
the parsed timestamp with the primary format reproduces the original
literal, hence the original filename. -/
theorem c9_primary_pattern_roundtrip (name lit : String) (t : Ts)
    (hn : name = lit ++ ".csv") (hp : parsePrimaryTs lit = some t) :
    Ts.format t ++ ".csv" = name := by
  subst hn
  unfold parsePrimaryTs at hp
  have hl := parseTsList_formatList hp
  unfold Ts.format
  congr 1
  exact String.ext hl

/-- C9 witness: the canonical literal `2025.05.03-12.34.56` round-trips. -/
theorem c9_roundtrip_witness :
    Ts.format ⟨2025, 5, 3, 12, 34, 56⟩ ++ ".csv" = "2025.05.03-12.34.56.csv" :=
  c9_primary_pattern_roundtrip "2025.05.03-12.34.56.csv" "2025.05.03-12.34.56"
    ⟨2025, 5, 3, 12, 34, 56⟩ rfl (by decide)

/-- C10: a candidate file whose parseable embedded timestamp lies more
than one hour past the current clock is never selected, whatever the
cursor (lines 1016–1021). -/
theorem c10_future_guard (cursorSec nowSec : Int) (files : List String) (f : String)
    (t : Ts) (hp : parseEmbeddedTs f = some t) (hf : t.toSec > nowSec + 3600) :
    f ∉ selectNewFiles cursorSec nowSec files := by
  unfold selectNewFiles
  intro hmem
  rw [List.mem_filter] at hmem
  obtain ⟨-, hkeep⟩ := hmem
  unfold selectKeep at hkeep
  rw [hp] at hkeep
  dsimp only at hkeep
  rw [if_pos hf] at hkeep
  exact Bool.noConfusion hkeep

/-- C10 witness: with the clock at 2025-05-10, a file dated 2030-01-01
is excluded even against cursor 0. -/
theorem c10_future_guard_witness :
    "2030.01.01-00.00.01.csv" ∉ selectNewFiles 0 (Ts.toSec ⟨2025, 5, 10, 0, 0, 0⟩)
      ["2030.01.01-00.00.01.csv"] :=
  c10_future_guard 0 (Ts.toSec ⟨2025, 5, 10, 0, 0, 0⟩) ["2030.01.01-00.00.01.csv"]
    "2030.01.01-00.00.01.csv" ⟨2030, 1, 1, 0, 0, 1⟩ (by decide) (by decide)
